/-
Verification of the NeuroPAC scientific-container data bridge
(features/classification/python/core/preprocess_bridge.py).

The Python module loads EEG-analysis result files (MATLAB containers in two
physical encodings), extracts per-(subject, condition) numeric samples with
fallback rules, pads the ragged samples into one batch tensor, and supports
class filtering.  This file gives a shallow embedding of those operations and
proves / refutes the specification claims about them.

Modelling conventions:
  * numpy arrays become `NDArray`: a shape (list of extents) together with a
    total valuation from index lists to rationals.  float32 rounding, complex
    magnitudes and NaN/Inf handling are value-level concerns orthogonal to the
    claims (which are about shapes, lengths, membership and control flow), so
    values live in `Rat` and the magnitude / nan_to_num steps are identities.
  * Python exceptions become `Option` / `Except`: a skipped (subject,
    condition) pair is `none`, a fatal error is `Except.error`.
  * object-dtype 1-element wrapper arrays (lines 333-338 and 369-374 of the
    source) are unwrap no-ops outside the numeric value domain and are elided.
-/
import Mathlib

namespace NeuroPAC

/-- An N-dimensional numeric array: a shape plus a valuation on index lists.
Only indices in bounds of `shape` are meaningful; helpers below guard them. -/
structure NDArray where
  shape : List Nat
  val : List Nat → Rat

/-- Number of elements, as numpy's `size`: the product of the extents. -/
def NDArray.size (a : NDArray) : Nat := a.shape.foldl (fun m d => m * d) 1

/-- Rank, as numpy's `ndim`. -/
def NDArray.ndim (a : NDArray) : Nat := a.shape.length

/-- `idx` is a valid index into an array of shape `shape`. -/
def inBounds (shape idx : List Nat) : Bool :=
  idx.length == shape.length && (List.zip idx shape).all fun p => p.1 < p.2

/-- The all-zero scalar array, used as an out-of-range default. -/
def zeroArr : NDArray := ⟨[], fun _ => 0⟩

/-- `np.expand_dims(arr, axis=-1)`: append one size-1 axis. -/
def expandDimsLast (a : NDArray) : NDArray :=
  ⟨a.shape ++ [1], fun idx => a.val idx.dropLast⟩

/-- `while arr.ndim < max_ndim: arr = np.expand_dims(arr, axis=-1)`
(preprocess_bridge.py lines 469-471). -/
def expandToRank (r : Nat) (a : NDArray) : NDArray :=
  if a.shape.length < r then expandToRank r (expandDimsLast a) else a
termination_by r - a.shape.length
decreasing_by
  simp [expandDimsLast]
  omega

/-- `max(sample.ndim for sample in all_samples)` (line 466). -/
def maxRank (l : List NDArray) : Nat :=
  l.foldl (fun m a => max m a.shape.length) 0

/-- `[max(arr.shape[dim] for arr in normalized_samples) for dim in range(max_ndim)]`
(line 474). -/
def maxShape (r : Nat) (l : List NDArray) : List Nat :=
  (List.range r).map fun d => l.foldl (fun m a => max m (a.shape.getD d 0)) 0

/-- `np.pad(arr, [(0, max_shape[dim] - arr.shape[dim]) ...], mode='constant')`
(lines 477-478): the original values sit in the low-index corner, everything
outside is zero. -/
def padTo (target : List Nat) (a : NDArray) : NDArray :=
  ⟨target, fun idx => if inBounds a.shape idx then a.val idx else 0⟩

/-- `np.stack(padded_samples, axis=0)` (line 484). -/
def stackList (target : List Nat) (l : List NDArray) : NDArray :=
  ⟨l.length :: target, fun idx =>
    match idx with
    | [] => 0
    | k :: rest => (l.getD k zeroArr).val rest⟩

/-- The shape-normalization block of `load_and_transform`
(preprocess_bridge.py lines 465-484): rank-normalize, zero-pad to the
per-axis maximum, stack along a new leading axis. -/
def normalizeAndStack (samples : List NDArray) : NDArray :=
  let r := maxRank samples
  let normalized := samples.map (expandToRank r)
  let ms := maxShape r normalized
  let padded := normalized.map (padTo ms)
  stackList ms padded

lemma getD_map {α β : Type} (f : α → β) (l : List α) (k : Nat) (d : α) :
    (l.map f).getD k (f d) = f (l.getD k d) := by
  induction l generalizing k with
  | nil => simp [List.getD]
  | cons x xs ih =>
    cases k with
    | zero => simp [List.getD]
    | succ n => simp [List.getD]

/-- `np.squeeze`: drop all size-1 axes.  The valuation re-inserts index 0 at
each squeezed axis. -/
def unsqueezeIdx : List Nat → List Nat → List Nat
  | [], _ => []
  | d :: ds, idx =>
    if d == 1 then 0 :: unsqueezeIdx ds idx
    else
      match idx with
      | [] => 0 :: unsqueezeIdx ds []
      | i :: is => i :: unsqueezeIdx ds is

def squeeze (a : NDArray) : NDArray :=
  ⟨a.shape.filter (fun d => !(d == 1)), fun idx => a.val (unsqueezeIdx a.shape idx)⟩

/-- `np.mean(..., axis=0)` / `np.nanmean(..., axis=0)`.  Values are rational,
so there are no NaNs to ignore; a zero-length leading axis yields the rational
convention `x / 0 = 0`, matching the later `np.nan_to_num(..., nan=0.0)`. -/
def meanAxis0 (a : NDArray) : NDArray :=
  let n := a.shape.headD 0
  ⟨a.shape.tail, fun idx =>
    (((List.range n).map fun i => a.val (i :: idx)).foldl (fun x y => x + y) 0) / (n : Rat)⟩

/-- `np.nanmean(sample, axis=(2, 3))` on a rank-4 array (line 435). -/
def meanAxes23 (a : NDArray) : NDArray :=
  let n2 := a.shape.getD 2 0
  let n3 := a.shape.getD 3 0
  ⟨a.shape.take 2, fun idx =>
    (((List.range n2).map fun i =>
      ((List.range n3).map fun j => a.val (idx.take 2 ++ [i, j])).foldl (fun x y => x + y) 0
     ).foldl (fun x y => x + y) 0) / ((n2 * n3 : Nat) : Rat)⟩

/-- A value stored in a reconstructed struct field: either a plain numeric
array, or (from the v7.3 path, line 670) an unresolved array of HDF5
references, which a later `np.array(..., dtype=np.float32)` cast rejects. -/
inductive FieldVal where
  | arr (a : NDArray)
  | refsDat (rs : List Nat)

/-- A per-condition record as seen by the extraction loop: a
`MatlabStructElement` (reference-reconstructed, subscript access that raises
`KeyError` on a missing key), a bare numpy array, or a scipy `mat_struct`
(attribute access, `getattr(..., None)` on a missing field). -/
inductive CondStruct where
  | matElem (fields : List (String × FieldVal))
  | arr (a : NDArray)
  | matStruct (fields : List (String × FieldVal))

def lookupField (fields : List (String × FieldVal)) (k : String) : Option FieldVal :=
  (fields.find? fun p => p.1 == k).map fun p => p.2

/-- One subject record: named condition structs plus the optional
`cfg.dataset` name.  The `os.path.basename`/`splitext` string processing of
lines 297-303 is elided; `cfgDataset` holds the already-processed name. -/
structure Record where
  conds : List (String × CondStruct)
  cfgDataset : Option String

def lookupCond (r : Record) (c : String) : Option CondStruct :=
  (r.conds.find? fun p => p.1 == c).map fun p => p.2

/-- `self.conditions` (line 91): fixed order target=0, standard=1, novelty=2. -/
def conditions : List String := ["target", "standard", "novelty"]

/-- The apostrophe character, for the `Parkinson's` map keys. -/
def apos : Char := Char.ofNat 39

def parkinsonsApos : String := "Parkinson" ++ String.singleton apos ++ "s"

def parkinsonsAposLower : String := "parkinson" ++ String.singleton apos ++ "s"

/-- `self.group_mapping` (lines 94-109), as the literal key/value list. -/
def group_mapping : List (String × Int) :=
  [("HC", 0), ("Hc", 0), ("hc", 0), ("CTL", 0), ("ctl", 0),
   ("P", 1), ("PD", 1), ("pd", 1),
   ("Parkinson", 1), ("Parkinsons", 1), (parkinsonsApos, 1),
   ("parkinson", 1), ("parkinsons", 1), (parkinsonsAposLower, 1)]

/-- `self.group_mapping.get(key, -1)`. -/
def groupLookup (s : String) : Int :=
  ((group_mapping.find? fun p => p.1 == s).map fun p => p.2).getD (-1)

/-- The analysis-kind → primary-data-field table (lines 230-247). -/
def data_field_of (analysis : String) : String :=
  if analysis == "erp" then ("avg")
  else if analysis == "time_frequency" then ("powspctrm")
  else if analysis == "spectral" then ("fourierspctrm")
  else if analysis == "connectivity" then ("cohspctrm")
  else if analysis == "intertrial_coherence" then ("itpc")
  else ("data")

/-- `getattr(cond_struct, 'trial', None)` / `cond_struct.get('trial')`
(lines 363 and 378): a bare ndarray condition has no `trial` attribute. -/
def get_trial : CondStruct → Option FieldVal
  | .matElem fields => lookupField fields ("trial")
  | .matStruct fields => lookupField fields ("trial")
  | .arr _ => none

/-- `np.mean(np.array(trial_data, dtype=np.float32), axis=0)` (line 365):
the float32 cast raises `TypeError` on an object/reference array, and
`np.mean(..., axis=0)` raises on a 0-d array; both raises skip the sample. -/
def trialMean : FieldVal → Option NDArray
  | .arr t => if t.shape.isEmpty then none else some (meanAxis0 t)
  | .refsDat _ => none

def fvSize : FieldVal → Nat
  | .arr a => a.size
  | .refsDat rs => rs.length

/-- `np.array(raw_data, dtype=np.float32)` (line 394): rejects reference
arrays (`TypeError`, caught at line 448), passes numeric arrays through
(complex magnitude and float32 rounding elided — values are already real). -/
def fvToSample : FieldVal → Option NDArray
  | .arr a => some a
  | .refsDat _ => none

/-- The empty-primary fallback (lines 376-382): an empty array falls back to
the averaged `trial` field; no `trial` means `KeyError`, skipping the pair. -/
def afterPrimary (cs : CondStruct) (fv : FieldVal) : Option NDArray :=
  if fvSize fv == 0 then (get_trial cs).bind trialMean else fvToSample fv

/-- After the missing-field fallback produced a mean, line 377 re-checks
emptiness and falls back to `trial` again. -/
def afterEmptyCheck (cs : CondStruct) (m : NDArray) : Option NDArray :=
  if m.size == 0 then (get_trial cs).bind trialMean else some m

/-- The raw-data acquisition of lines 352-382, per condition-struct kind.
`MatlabStructElement.__getitem__` (lines 20-24) raises `KeyError` when the
primary field is missing, so the reference-reconstructed path never reaches
the `raw_data is None` trial fallback of lines 361-367; only the
attribute-style (`mat_struct`) path does. -/
def getRawData (cs : CondStruct) (df : String) : Option NDArray :=
  match cs with
  | .arr a => if a.size == 0 then none else some a
  | .matElem fields =>
    match lookupField fields df with
    | none => none
    | some fv => afterPrimary cs fv
  | .matStruct fields =>
    match lookupField fields df with
    | some fv => afterPrimary cs fv
    | none =>
      match (get_trial cs).bind trialMean with
      | none => none
      | some m => afterEmptyCheck cs m

/-- One (subject, condition) extraction attempt (lines 316-447): resolve the
condition struct, acquire the raw data with fallbacks, squeeze, skip empty
samples, then apply the spectral / connectivity reductions.  The `dimord`
inspection of lines 406-427 is dropped because both of its 3-d branches
perform the same `np.nanmean(sample, axis=0)`.  `none` means the pair is
skipped non-fatally (exception caught at line 448 or `continue` at 404). -/
def extract_condition (analysis targetModel df : String) (record : Record)
    (condName : String) : Option NDArray :=
  match lookupCond record condName with
  | none => none
  | some cs =>
    match getRawData cs df with
    | none => none
    | some raw =>
      let sample := squeeze raw
      if sample.size == 0 then none
      else
        let sample :=
          if analysis == "spectral" then
            (if sample.ndim == 4 then meanAxis0 sample
             else if sample.ndim == 3 then meanAxis0 sample
             else squeeze sample)
          else sample
        let sample :=
          if analysis == "connectivity" && sample.ndim == 4 && targetModel == "riemannian" then
            meanAxes23 sample
          else sample
        some sample

/-- The five parallel output sequences plus a count of logged skip warnings
(each `print(... Warning ...)` / skip message adds one). -/
structure ExtractState where
  samples : List NDArray
  condition_labels : List Nat
  group_labels : List Int
  subject_ids : List Nat
  dataset_names : List String
  warnings : Nat

def emptyExtractState : ExtractState := ⟨[], [], [], [], [], 0⟩

/-- One iteration of the inner condition loop (lines 316-449): on success the
five appends of lines 443-447 run together; on failure the warning of line
449 (or the skip message of line 403) is logged and the loop continues. -/
def stepCond (analysis targetModel df : String) (i : Nat) (gv : Int) (ds : String)
    (record : Record) (st : ExtractState) (labelIdx : Nat) (condName : String) : ExtractState :=
  match extract_condition analysis targetModel df record condName with
  | some s =>
      { samples := st.samples ++ [s]
        condition_labels := st.condition_labels ++ [labelIdx]
        group_labels := st.group_labels ++ [gv]
        subject_ids := st.subject_ids ++ [i]
        dataset_names := st.dataset_names ++ [ds]
        warnings := st.warnings }
  | none => { st with warnings := st.warnings + 1 }

/-- `group_list[i]` then `self.group_mapping.get(..., -1)` (lines 307-314);
an out-of-range index (`IndexError`) also yields the sentinel -1. -/
def group_val_of (groupList : List String) (i : Nat) : Int :=
  match groupList[i]? with
  | some s => groupLookup s
  | none => -1

/-- Default dataset name `"S" + str(i).zfill(3)` (line 292). -/
def default_dataset_name (i : Nat) : String :=
  let s := toString i
  "S" ++ String.mk (List.replicate (3 - s.data.length) '0' ++ s.data)

def dataset_name_of (i : Nat) (r : Record) : String :=
  match r.cfgDataset with
  | some s => s
  | none => default_dataset_name i

/-- One iteration of the outer subject loop (lines 280-456).  `none` models a
record whose access raised: the outer handler prints the error and
`continue`s (lines 452-456). -/
def stepSubject (groupList : List String) (analysis targetModel df : String)
    (st : ExtractState) (i : Nat) (rec? : Option Record) : ExtractState :=
  match rec? with
  | none => { st with warnings := st.warnings + 1 }
  | some r =>
    let ds := dataset_name_of i r
    let gv := group_val_of groupList i
    conditions.enum.foldl
      (fun st p => stepCond analysis targetModel df i gv ds r st p.1 p.2) st

/-- The full subject-by-condition extraction loop of `load_and_transform`
(lines 264-456), over the already-indexed record array. -/
def runExtraction (groupList : List String) (analysis targetModel : String)
    (records : List (Option Record)) : ExtractState :=
  records.enum.foldl
    (fun st p => stepSubject groupList analysis targetModel (data_field_of analysis) st p.1 p.2)
    emptyExtractState

inductive LoadError where
  | emptyDataset
deriving DecidableEq

/-- The post-loop zero-sample check (lines 458-463): the only fatal condition
at the extraction layer, raised as `ValueError` ("EmptyDatasetError"). -/
def load_samples (groupList : List String) (analysis targetModel : String)
    (records : List (Option Record)) : Except LoadError ExtractState :=
  let st := runExtraction groupList analysis targetModel records
  if st.samples.length == 0 then Except.error LoadError.emptyDataset else Except.ok st

/-! Format detection (lines 213-227) -/

inductive PyExcType where
  | valueError
  | notImplementedError
  | keyError
  | otherExc
deriving DecidableEq

structure PyError where
  ty : PyExcType
  msg : List Char
deriving DecidableEq

/-- The caught exception set of line 218: `except (ValueError, NotImplementedError)`. -/
def caughtType : PyExcType → Bool
  | .valueError => true
  | .notImplementedError => true
  | _ => false

def leadsWith : List Char → List Char → Bool
  | [], _ => true
  | _ :: _, [] => false
  | p :: ps, c :: cs => (p == c) && leadsWith ps cs

/-- Python's substring test `pat in text`. -/
def containsSub (pat : List Char) : List Char → Bool
  | [] => leadsWith pat []
  | c :: rest => leadsWith pat (c :: rest) || containsSub pat rest

/-- Line 220: `"HDF reader" in error_msg or "matlab v7.3" in error_msg.lower()`. -/
def isV73Signature (msg : List Char) : Bool :=
  containsSub (("HDF reader").data) msg
    || containsSub (("matlab v7.3").data) (msg.map Char.toLower)

/-- The loader selection of lines 213-227: attempt the dense (scipy) reader;
on a caught error whose message carries the v7.3 signature, run the
reference-based (h5py) loader; otherwise re-raise.  The Bool records whether
the fallback loader was invoked. -/
def loadmat_with_fallback {D : Type} (dense : Except PyError D)
    (v73 : Except PyError D) : Except PyError (D × Bool) :=
  match dense with
  | .ok d => Except.ok (d, false)
  | .error e =>
    if caughtType e.ty && isV73Signature e.msg then v73.map fun d => (d, true)
    else Except.error e

/-! Reference-loader resource handling (`_load_mat_v73`, lines 527-562) -/

/-- The bridge's `self._h5_file` field (line 78). -/
structure BridgeState where
  h5_file : Option Nat

/-- `_load_mat_v73`: open the file (storing the handle in `_h5_file`), run the
conversion, close and reset on success (lines 548-551) and in the exception
handler (lines 559-561).  The conversion loop over top-level keys is
abstracted as `convert`; the claim under audit concerns only the handle
lifecycle.  Returns (result, final state, list of handles closed). -/
def load_mat_v73 {D : Type} (st : BridgeState) (openRes : Except PyError Nat)
    (convert : Nat → Except PyError D) : Except PyError D × BridgeState × List Nat :=
  match openRes with
  | .error e => (Except.error e, ⟨none⟩, st.h5_file.toList)
  | .ok h =>
    match convert h with
    | .ok d => (Except.ok d, ⟨none⟩, [h])
    | .error e => (Except.error e, ⟨none⟩, [h])

/-! Condition-struct reconstruction (`_convert_condition_struct`, lines 629-682) -/

inductive H5Data where
  | numeric (a : NDArray)
  | refs (rs : List Nat)

inductive H5Obj where
  | dataset (d : H5Data)
  | group (fields : List (String × H5Obj))

/-- `self._deref(ref)` (lines 564-566): the open file maps reference handles
to objects. -/
def deref (file : List H5Obj) (r : Nat) : H5Obj :=
  file.getD r (H5Obj.dataset (H5Data.numeric zeroArr))

/-- `data_fields` (lines 648-649): the names carrying actual EEG data. -/
def data_fields : List String :=
  ["powspctrm", "avg", "fourierspctrm", "cohspctrm", "itpc",
   "trial", "time", "freq", "label", "dimord"]

/-- The metadata names of line 654: `['cfg', 'hdr', 'grad', 'elec']`. -/
def metadata_skip : List String := ["cfg", "hdr", "grad", "elec"]

/-- `key.startswith('#')`. -/
def hashName (s : String) : Bool :=
  match s.data with
  | [] => false
  | c :: _ => c == '#'

def fieldValOfData : H5Data → FieldVal
  | .numeric a => FieldVal.arr a
  | .refs rs => FieldVal.refsDat rs

/-- `_extract_data_from_group` (lines 684-695): the first non-`#` key whose
child is a non-reference dataset. -/
def extract_data_from_group (fields : List (String × H5Obj)) : Option NDArray :=
  (fields.filter fun p => !(hashName p.1)).findSome? fun p =>
    match p.2 with
    | .dataset (.numeric a) => some a
    | _ => none

/-- One key of `_convert_condition_struct`'s group branch (lines 652-678).
The guard is the source's literal
`key in data_fields or key not in ['cfg', 'hdr', 'grad', 'elec']`:
a name outside the allowlist still contributes unless it is one of the four
metadata names.  A singleton reference is dereferenced and kept when it is a
dataset; a non-singleton reference array is stored as-is (line 670); a nested
group is descended into only for allowlisted names (line 675). -/
def convert_child (file : List H5Obj) (p : String × H5Obj) : Option (String × FieldVal) :=
  let k := p.1
  if data_fields.contains k || !(metadata_skip.contains k) then
    match p.2 with
    | .dataset (.numeric a) => some (k, FieldVal.arr a)
    | .dataset (.refs rs) =>
      if rs.length == 1 then
        match deref file (rs.headD 0) with
        | .dataset d => some (k, fieldValOfData d)
        | .group _ => none
      else some (k, FieldVal.refsDat rs)
    | .group g =>
      if data_fields.contains k then
        (extract_data_from_group g).map fun a => (k, FieldVal.arr a)
      else none
  else none

def convert_condition_fields (file : List H5Obj)
    (fields : List (String × H5Obj)) : List (String × FieldVal) :=
  (fields.filter fun p => !(hashName p.1)).filterMap (convert_child file)

/-- `_convert_condition_struct` on a group: the reconstructed
`MatlabStructElement`'s field dictionary, or `None` when no field
contributed (line 680). -/
def convert_condition_struct_group (file : List H5Obj)
    (fields : List (String × H5Obj)) : Option (List (String × FieldVal)) :=
  let d := convert_condition_fields file fields
  if d.isEmpty then none else some d

/-! Class filtering (`filter_by_selected_classes`, lines 114-190) -/

/-- A Python label value reaching the filter: an int (or numpy int) or a
string.  Float labels are elided. -/
inductive PyLabel where
  | int (i : Int)
  | str (s : String)
deriving DecidableEq

def parseDigits (cs : List Char) : Option Nat :=
  match cs with
  | [] => none
  | _ =>
    if cs.all (fun c => c.isDigit) then
      some (cs.foldl (fun acc c => acc * 10 + (c.toNat - 48)) 0)
    else none

/-- Python `int(s)` on a string: optional sign then digits, else `ValueError`.
(Surrounding whitespace handling is elided.) -/
def str_to_int (s : String) : Option Int :=
  match s.data with
  | [] => none
  | c :: rest =>
    if c == '-' then (parseDigits rest).map fun n => -(n : Int)
    else if c == '+' then (parseDigits rest).map fun n => (n : Int)
    else (parseDigits (c :: rest)).map fun n => (n : Int)

/-- Python `str.upper()` / `str.lower()` on the ASCII names used here,
character by character. -/
def upperStr (s : String) : String := String.mk (s.data.map Char.toUpper)

def lowerStr (s : String) : String := String.mk (s.data.map Char.toLower)

/-- Lines 163-168: `int(group_label)` when convertible, else
`self.group_mapping.get(str(group_label).upper(), -1)`. -/
def label_to_group_idx (l : PyLabel) : Int :=
  match l with
  | .int i => i
  | .str s =>
    match str_to_int s with
    | some i => i
    | none => groupLookup (upperStr s)

/-- `class_str.rsplit('_', 1)` when it yields two parts: split at the last
underscore. -/
def lastSplitUnderscore : List Char → Option (List Char × List Char)
  | [] => none
  | c :: rest =>
    match lastSplitUnderscore rest with
    | some (a, b) => some (c :: a, b)
    | none => if c == '_' then some ([], rest) else none

def cond_index_of (s : String) : Option Nat :=
  conditions.findIdx? fun c => c == s

/-- Lines 138-146: parse each `"GROUP_condition"` string into
`(GROUP.upper(), condition index)`; strings without an underscore or with an
unknown condition name are dropped. -/
def parse_selected_combos (classes : List String) : List (String × Nat) :=
  classes.filterMap fun cs =>
    match lastSplitUnderscore cs.data with
    | none => none
    | some (g, c) =>
      match cond_index_of (lowerStr (String.mk c)) with
      | some ci => some (upperStr (String.mk g), ci)
      | none => none

/-- Lines 174-186: a sample is kept when some selected combo's group index
(via the mapping, default -1) equals the sample's group index and the
condition indices agree; `break` on the first hit matches `any`. -/
def matches_combo (combos : List (String × Nat)) (g : PyLabel) (c : Nat) : Bool :=
  combos.any fun p => (groupLookup p.1 == label_to_group_idx g) && (p.2 == c)

/-- The filtering loop of lines 154-186, with `i` the running enumeration
index; appends become list conses on the recursive result. -/
def filter_loop {α : Type} (combos : List (String × Nat)) :
    Nat → List (α × PyLabel × Nat) → List α × List PyLabel × List Nat × List Nat
  | _, [] => ([], [], [], [])
  | i, (s, g, c) :: rest =>
    let r := filter_loop combos (i + 1) rest
    if matches_combo combos g c then (s :: r.1, g :: r.2.1, c :: r.2.2.1, i :: r.2.2.2)
    else r

/-- `filter_by_selected_classes` (lines 114-190).  `none` models passing
`selected_classes=None`. -/
def filter_by_selected_classes {α : Type} (samples : List α)
    (group_labels : List PyLabel) (condition_labels : List Nat)
    (selected_classes : Option (List String)) :
    List α × List PyLabel × List Nat × List Nat :=
  match selected_classes with
  | none => (samples, group_labels, condition_labels, List.range samples.length)
  | some cls =>
    if cls.isEmpty then (samples, group_labels, condition_labels, List.range samples.length)
    else
      let combos := parse_selected_combos cls
      if combos.isEmpty then (samples, group_labels, condition_labels, List.range samples.length)
      else filter_loop combos 0 (samples.zip (group_labels.zip condition_labels))

/-! Helper lemmas -/

lemma foldl_preserve {α β : Type} (P : α → Prop) (f : α → β → α)
    (h : ∀ a b, P a → P (f a b)) :
    ∀ (l : List β) (a : α), P a → P (l.foldl f a) := by
  intro l
  induction l with
  | nil => intro a ha; exact ha
  | cons x xs ih => intro a ha; exact ih (f a x) (h a x ha)

/-- The five parallel sequences stay equally long. -/
def aligned (st : ExtractState) : Prop :=
  st.samples.length = st.condition_labels.length ∧
  st.samples.length = st.group_labels.length ∧
  st.samples.length = st.subject_ids.length ∧
  st.samples.length = st.dataset_names.length

lemma stepCond_aligned (analysis targetModel df : String) (i : Nat) (gv : Int)
    (ds : String) (r : Record) (st : ExtractState) (labelIdx : Nat) (condName : String)
    (h : aligned st) :
    aligned (stepCond analysis targetModel df i gv ds r st labelIdx condName) := by
  obtain ⟨h1, h2, h3, h4⟩ := h
  cases hE : extract_condition analysis targetModel df r condName <;>
    (simp [stepCond, hE, aligned]; omega)

lemma stepSubject_aligned (groupList : List String) (analysis targetModel df : String)
    (st : ExtractState) (i : Nat) (rec? : Option Record) (h : aligned st) :
    aligned (stepSubject groupList analysis targetModel df st i rec?) := by
  cases rec? with
  | none =>
    obtain ⟨h1, h2, h3, h4⟩ := h
    simp [stepSubject, aligned]
    omega
  | some r =>
    exact foldl_preserve aligned _
      (fun a b ha => stepCond_aligned _ _ _ _ _ _ _ _ _ _ ha) _ st h

/-- C1: after the subject-by-condition extraction loop of `load_and_transform`
completes, for every group-label list, analysis kind, target architecture and
record array, the sample list and the four label sequences (condition, group,
subject_id, dataset_name) all have the same length; every skip path (missing
condition, missing field, empty sample, per-subject failure) leaves all five
sequences equally long. -/
theorem C1_label_alignment (groupList : List String) (analysis targetModel : String)
    (records : List (Option Record)) :
    let st := runExtraction groupList analysis targetModel records
    st.samples.length = st.condition_labels.length ∧
    st.samples.length = st.group_labels.length ∧
    st.samples.length = st.subject_ids.length ∧
    st.samples.length = st.dataset_names.length := by
  have : aligned (runExtraction groupList analysis targetModel records) := by
    refine foldl_preserve aligned _ ?_ _ emptyExtractState ?_
    · intro a b ha
      exact stepSubject_aligned _ _ _ _ _ _ _ ha
    · simp [emptyExtractState, aligned]
  exact this

/-- C3: the extraction layer raises the fatal empty-dataset error exactly when
the full iteration yields zero samples; a failed per-sample extraction only
logs a warning and leaves the state otherwise unchanged (the loop continues);
a failed subject likewise; nothing else at this layer is fatal. -/
theorem C3_empty_dataset_fatal (groupList : List String)
    (analysis targetModel df : String) (records : List (Option Record))
    (st : ExtractState) (i labelIdx : Nat) (gv : Int) (ds : String) (r : Record)
    (condName : String) :
    ((load_samples groupList analysis targetModel records = Except.error LoadError.emptyDataset)
      ↔ (runExtraction groupList analysis targetModel records).samples.length = 0) ∧
    (extract_condition analysis targetModel df r condName = none →
      stepCond analysis targetModel df i gv ds r st labelIdx condName
        = { st with warnings := st.warnings + 1 }) ∧
    (stepSubject groupList analysis targetModel df st i none
      = { st with warnings := st.warnings + 1 }) := by
  refine ⟨?_, ?_, rfl⟩
  · by_cases h : (runExtraction groupList analysis targetModel records).samples.length = 0 <;>
      simp [load_samples, h]
  · intro h
    simp [stepCond, h]

/-- Witness for C3 at concrete inputs: an empty record array is fatal, and a
record without the requested condition is a logged skip. -/
theorem C3_witness :
    ((load_samples [] ("erp") ("eeg_net") [] = Except.error LoadError.emptyDataset)
      ↔ (runExtraction [] ("erp") ("eeg_net") []).samples.length = 0) ∧
    (stepCond ("erp") ("eeg_net") ("avg") 0 (-1) ("S000") ⟨[], none⟩ emptyExtractState 0 ("target")
      = { emptyExtractState with warnings := emptyExtractState.warnings + 1 }) ∧
    (stepSubject [] ("erp") ("eeg_net") ("avg") emptyExtractState 0 none
      = { emptyExtractState with warnings := emptyExtractState.warnings + 1 }) :=
  ⟨(C3_empty_dataset_fatal [] ("erp") ("eeg_net") ("avg") [] emptyExtractState 0 0 (-1)
      ("S000") ⟨[], none⟩ ("target")).1,
   (C3_empty_dataset_fatal [] ("erp") ("eeg_net") ("avg") [] emptyExtractState 0 0 (-1)
      ("S000") ⟨[], none⟩ ("target")).2.1 rfl,
   (C3_empty_dataset_fatal [] ("erp") ("eeg_net") ("avg") [] emptyExtractState 0 0 (-1)
      ("S000") ⟨[], none⟩ ("target")).2.2⟩

/-- C6: the dense (scipy) reader is attempted first; the reference-based
(h5py) loader runs exactly when the dense attempt raises an error in the
caught set (`ValueError`, `NotImplementedError`) whose message matches the
v7.3 signature (`'HDF reader'`, or `'matlab v7.3'` case-insensitively); any
other error propagates unchanged. -/
theorem C6_format_detection {D : Type} (dense v73 : Except PyError D) :
    (∀ d, dense = Except.ok d →
      loadmat_with_fallback dense v73 = Except.ok (d, false)) ∧
    (∀ e, dense = Except.error e →
      ((caughtType e.ty = true ∧ isV73Signature e.msg = true) →
        loadmat_with_fallback dense v73 = v73.map fun x => (x, true)) ∧
      ((caughtType e.ty = false ∨ isV73Signature e.msg = false) →
        loadmat_with_fallback dense v73 = Except.error e)) := by
  constructor
  · intro d hd
    simp [hd, loadmat_with_fallback]
  · intro e he
    constructor
    · intro ⟨h1, h2⟩
      simp [he, loadmat_with_fallback, h1, h2]
    · intro h
      rcases h with h | h <;> simp [he, loadmat_with_fallback, h]

/-- Witness for C6: a `ValueError` carrying the HDF-reader message triggers
the fallback loader; a `KeyError` with the same message propagates. -/
theorem C6_witness :
    (loadmat_with_fallback
        (Except.error ⟨PyExcType.valueError, ("Please use HDF reader for matlab v7.3 files").data⟩)
        (Except.ok (42 : Nat))
      = (Except.ok (42 : Nat)).map fun x => (x, true)) ∧
    (loadmat_with_fallback
        (Except.error ⟨PyExcType.keyError, ("Please use HDF reader for matlab v7.3 files").data⟩)
        (Except.ok (42 : Nat))
      = Except.error ⟨PyExcType.keyError, ("Please use HDF reader for matlab v7.3 files").data⟩) :=
  ⟨((C6_format_detection
      (Except.error ⟨PyExcType.valueError, ("Please use HDF reader for matlab v7.3 files").data⟩)
      (Except.ok (42 : Nat))).2 _ rfl).1 ⟨rfl, by decide⟩,
   ((C6_format_detection
      (Except.error ⟨PyExcType.keyError, ("Please use HDF reader for matlab v7.3 files").data⟩)
      (Except.ok (42 : Nat))).2 _ rfl).2 (Or.inl rfl)⟩

/-- C7: `_load_mat_v73` leaves the stored handle field empty on every exit
path — successful conversion, conversion failure, and open failure — and any
handle it opened is closed. -/
theorem C7_handle_lifecycle {D : Type} (st : BridgeState) (openRes : Except PyError Nat)
    (convert : Nat → Except PyError D) :
    (load_mat_v73 st openRes convert).2.1.h5_file = none ∧
    (∀ h, openRes = Except.ok h → h ∈ (load_mat_v73 st openRes convert).2.2) := by
  cases openRes with
  | error e => simp [load_mat_v73]
  | ok h =>
    cases hc : convert h with
    | ok d => simp [load_mat_v73, hc]
    | error e => simp [load_mat_v73, hc]

/-- Witness for C7: a concrete failed conversion still closes handle 3 and
resets the handle field. -/
theorem C7_witness :
    (load_mat_v73 ⟨some 5⟩ (Except.ok 3)
        (fun _ => (Except.error ⟨PyExcType.valueError, []⟩ : Except PyError Nat))).2.1.h5_file
      = none ∧
    3 ∈ (load_mat_v73 ⟨some 5⟩ (Except.ok 3)
        (fun _ => (Except.error ⟨PyExcType.valueError, []⟩ : Except PyError Nat))).2.2 :=
  ⟨(C7_handle_lifecycle ⟨some 5⟩ (Except.ok 3) _).1,
   (C7_handle_lifecycle ⟨some 5⟩ (Except.ok 3)
      (fun _ => (Except.error ⟨PyExcType.valueError, []⟩ : Except PyError Nat))).2 3 rfl⟩

/-- C8 counterexample: the claim sends every case-variant of `Parkinson` to
index 1, but the mapping holds only the exact spellings, so the all-caps
variant `PARKINSON` resolves to the sentinel -1, not 1. -/
theorem C8_counterexample :
    groupLookup ("PARKINSON") ≠ 1 ∧ groupLookup ("PARKINSON") = -1 := by
  constructor <;> decide

/-- C8 (amended): HC, Hc, hc, CTL, ctl map to 0; P, PD, pd and exactly the
spellings Parkinson, Parkinsons, Parkinson's in initial-capital or
all-lowercase form map to 1; every name outside the literal key set
(including other case-variants such as PARKINSON) maps to the sentinel -1;
and a sample whose group resolves to -1 is still emitted with the
sentinel. -/
theorem C8_amended_group_mapping :
    (∀ s : String,
      (s ∈ ["HC", "Hc", "hc", "CTL", "ctl"] → groupLookup s = 0) ∧
      (s ∈ ["P", "PD", "pd", "Parkinson", "Parkinsons", "parkinson", "parkinsons",
            parkinsonsApos, parkinsonsAposLower] → groupLookup s = 1) ∧
      (s ∉ group_mapping.map Prod.fst → groupLookup s = -1)) ∧
    ((runExtraction ["XYZ"] ("erp") ("eeg_net")
        [some ⟨[(("target"), CondStruct.matStruct [(("avg"), FieldVal.arr ⟨[2], fun _ => 1⟩)])], none⟩]).group_labels
      = [-1] ∧
     (runExtraction ["XYZ"] ("erp") ("eeg_net")
        [some ⟨[(("target"), CondStruct.matStruct [(("avg"), FieldVal.arr ⟨[2], fun _ => 1⟩)])], none⟩]).samples.length
      = 1) := by
  constructor
  · intro s
    refine ⟨?_, ?_, ?_⟩
    · intro h
      fin_cases h <;> decide
    · intro h
      fin_cases h <;> decide
    · intro h
      cases hf : group_mapping.find? fun p => p.1 == s with
      | none => simp [groupLookup, hf]
      | some p =>
        exfalso
        have hmem : p ∈ group_mapping := List.mem_of_find?_eq_some hf
        have hpeq := List.find?_some hf
        simp only [beq_iff_eq] at hpeq
        apply h
        rw [← hpeq]
        exact List.mem_map_of_mem Prod.fst hmem
  · exact ⟨rfl, rfl⟩

/-- Witness for C8 (amended) at concrete names: a zero-group synonym, a
one-group synonym, and an unmapped name. -/
theorem C8_witness :
    groupLookup ("hc") = 0 ∧ groupLookup ("pd") = 1 ∧ groupLookup ("XYZ") = -1 :=
  ⟨((C8_amended_group_mapping).1 ("hc")).1 (by decide),
   ((C8_amended_group_mapping).1 ("pd")).2.1 (by decide),
   ((C8_amended_group_mapping).1 ("XYZ")).2.2 (by decide)⟩

/-- Concrete raw-trials array reused by the C4 theorems. -/
def tTrial : NDArray := ⟨[2, 3], fun _ => 1⟩

/-- Concrete empty primary-field array (`size == 0`) reused by C4. -/
def emptyPrimary : NDArray := ⟨[0], fun _ => 0⟩

/-- C4 counterexample: the claim demands the trial-mean fallback for a
reference-reconstructed record whose primary field is missing, but
`MatlabStructElement.__getitem__` raises `KeyError` before the fallback is
reached, so the pair is skipped even though `trial` is available: the
extraction yields nothing instead of `mean(trial, axis=0)`. -/
theorem C4_counterexample :
    getRawData (CondStruct.matElem [(("trial"), FieldVal.arr tTrial)]) ("avg") = none ∧
    extract_condition ("erp") ("eeg_net") ("avg")
      ⟨[(("target"), CondStruct.matElem [(("trial"), FieldVal.arr tTrial)])], none⟩
      ("target") = none := by
  exact ⟨rfl, rfl⟩

/-- C4 (amended): the empty-primary fallback to `mean(trial, axis=0)` applies
to both record kinds, but the missing-primary fallback applies only to
attribute-style (native dense) records; a reference-reconstructed record with
a missing primary field is skipped immediately, and in all cases the pair is
skipped non-fatally when `trial` is also unavailable. -/
theorem C4_amended_fallback (fields : List (String × FieldVal)) (df : String)
    (a t : NDArray) :
    (lookupField fields df = none →
      getRawData (CondStruct.matElem fields) df = none) ∧
    (lookupField fields df = none →
      lookupField fields ("trial") = some (FieldVal.arr t) → t.shape ≠ [] →
      getRawData (CondStruct.matStruct fields) df = some (meanAxis0 t)) ∧
    (lookupField fields df = some (FieldVal.arr a) → a.size = 0 →
      lookupField fields ("trial") = some (FieldVal.arr t) → t.shape ≠ [] →
      getRawData (CondStruct.matElem fields) df = some (meanAxis0 t) ∧
      getRawData (CondStruct.matStruct fields) df = some (meanAxis0 t)) ∧
    (lookupField fields df = some (FieldVal.arr a) → a.size = 0 →
      lookupField fields ("trial") = none →
      getRawData (CondStruct.matElem fields) df = none ∧
      getRawData (CondStruct.matStruct fields) df = none) ∧
    (lookupField fields df = none → lookupField fields ("trial") = none →
      getRawData (CondStruct.matStruct fields) df = none) := by
  refine ⟨?_, ?_, ?_, ?_, ?_⟩
  · intro h
    simp [getRawData, h]
  · intro h ht hsh
    simp [getRawData, h, get_trial, ht, trialMean, hsh, afterEmptyCheck]
  · intro h hsz ht hsh
    constructor <;>
      simp [getRawData, h, afterPrimary, fvSize, hsz, get_trial, ht, trialMean, hsh]
  · intro h hsz ht
    constructor <;>
      simp [getRawData, h, afterPrimary, fvSize, hsz, get_trial, ht]
  · intro h ht
    simp [getRawData, h, get_trial, ht]

/-- Witness for C4 (amended): an empty primary plus a 2x3 trial array falls
back to the trial mean on both record kinds. -/
theorem C4_witness :
    getRawData (CondStruct.matElem
        [(("avg"), FieldVal.arr emptyPrimary), (("trial"), FieldVal.arr tTrial)]) ("avg")
      = some (meanAxis0 tTrial) ∧
    getRawData (CondStruct.matStruct
        [(("avg"), FieldVal.arr emptyPrimary), (("trial"), FieldVal.arr tTrial)]) ("avg")
      = some (meanAxis0 tTrial) :=
  (C4_amended_fallback
      [(("avg"), FieldVal.arr emptyPrimary), (("trial"), FieldVal.arr tTrial)]
      ("avg") emptyPrimary tTrial).2.2.1 rfl rfl rfl (by simp [tTrial])

/-- Concrete numeric dataset reused by the C5 theorems. -/
def aInfo : NDArray := ⟨[3], fun _ => 2⟩

/-- C5 counterexample: `sampleinfo` is outside the fixed allowlist, yet the
reconstruction keeps it, because the code's guard
`key in data_fields or key not in ['cfg', 'hdr', 'grad', 'elec']` only drops
the four metadata names. -/
theorem C5_counterexample :
    convert_condition_struct_group [] [(("sampleinfo"), H5Obj.dataset (H5Data.numeric aInfo))]
      = some [(("sampleinfo"), FieldVal.arr aInfo)] ∧
    ("sampleinfo" ∈ data_fields → False) := by
  exact ⟨rfl, by decide⟩

/-- C5 (amended): the walk skips outright exactly the metadata names
cfg, hdr, grad, elec (plus `#`-prefixed names); a child dataset under any
other name contributes its value; the allowlist governs only descent into
nested groups; and the reconstructed record is the filtered field list (or
nothing when no field contributed). -/
theorem C5_amended_allowlist (file : List H5Obj) (k : String) (child : H5Obj)
    (g : List (String × H5Obj)) (a : NDArray) :
    (k ∈ metadata_skip → convert_child file (k, child) = none) ∧
    (k ∉ metadata_skip →
      convert_child file (k, H5Obj.dataset (H5Data.numeric a)) = some (k, FieldVal.arr a)) ∧
    (k ∉ data_fields → convert_child file (k, H5Obj.group g) = none) ∧
    (∀ fields, convert_condition_struct_group file fields =
      (if (convert_condition_fields file fields).isEmpty then none
       else some (convert_condition_fields file fields))) := by
  refine ⟨?_, ?_, ?_, fun _ => rfl⟩
  · intro h
    fin_cases h <;> rfl
  · intro h
    simp [convert_child, h]
  · intro h
    by_cases hm : k ∈ metadata_skip
    · fin_cases hm <;> rfl
    · simp [convert_child, h, hm]

/-- Witness for C5 (amended): `cfg` is dropped, a `sampleinfo` dataset is
kept, a `sampleinfo` nested group is not descended into. -/
theorem C5_witness :
    convert_child [] (("cfg"), H5Obj.dataset (H5Data.numeric aInfo)) = none ∧
    convert_child [] (("sampleinfo"), H5Obj.dataset (H5Data.numeric aInfo))
      = some (("sampleinfo"), FieldVal.arr aInfo) ∧
    convert_child [] (("sampleinfo"), H5Obj.group []) = none :=
  ⟨(C5_amended_allowlist [] ("cfg") (H5Obj.dataset (H5Data.numeric aInfo)) [] aInfo).1 (by decide),
   (C5_amended_allowlist [] ("sampleinfo") (H5Obj.dataset (H5Data.numeric aInfo)) [] aInfo).2.1 (by decide),
   (C5_amended_allowlist [] ("sampleinfo") (H5Obj.dataset (H5Data.numeric aInfo)) [] aInfo).2.2.1 (by decide)⟩

/-- C10: when `selected_classes` is `None`, empty, or contains no string that
parses into a known (group, condition) combination — split on the last
underscore, condition part naming one of target/standard/novelty — the filter
returns its inputs unchanged with kept indices `[0, n)`. -/
theorem C10_filter_passthrough {α : Type} (samples : List α)
    (group_labels : List PyLabel) (condition_labels : List Nat)
    (selected_classes : Option (List String))
    (h : selected_classes = none ∨ selected_classes = some [] ∨
      ∃ cls, selected_classes = some cls ∧ parse_selected_combos cls = []) :
    filter_by_selected_classes samples group_labels condition_labels selected_classes
      = (samples, group_labels, condition_labels, List.range samples.length) := by
  rcases h with h | h | ⟨cls, h, hp⟩
  · simp [h, filter_by_selected_classes]
  · simp [h, filter_by_selected_classes]
  · subst h
    by_cases hc : cls.isEmpty <;> simp [filter_by_selected_classes, hc, hp]

/-- Witness for C10: a class string without an underscore parses to no combo,
so filtering is the identity with full index range. -/
theorem C10_witness :
    filter_by_selected_classes [(3 : Int), 4] [PyLabel.int 1, PyLabel.int 0] [0, 1]
        (some ["PDtarget"])
      = ([(3 : Int), 4], [PyLabel.int 1, PyLabel.int 0], [0, 1], List.range 2) :=
  C10_filter_passthrough [(3 : Int), 4] [PyLabel.int 1, PyLabel.int 0] [0, 1]
    (some ["PDtarget"]) (Or.inr (Or.inr ⟨["PDtarget"], rfl, rfl⟩))

/-- C2: for every non-empty sample list, the normalized batch's shape is the
sample count followed by the per-axis maxima; for each sample index `k`, the
batch slice at `k` agrees with the rank-normalized sample on every index
inside that sample's shape, and is zero on every index of the padded shape
outside it. -/
theorem C2_shape_normalization (samples : List NDArray) (_hne : samples ≠ []) :
    let r := maxRank samples
    let normalized := samples.map (expandToRank r)
    let ms := maxShape r normalized
    let X := normalizeAndStack samples
    X.shape = samples.length :: ms ∧
    ∀ k, k < samples.length →
      (∀ idx, inBounds (normalized.getD k zeroArr).shape idx = true →
        X.val (k :: idx) = (normalized.getD k zeroArr).val idx) ∧
      (∀ idx, inBounds ms idx = true →
        inBounds (normalized.getD k zeroArr).shape idx = false →
        X.val (k :: idx) = 0) := by
  intro r normalized ms X
  have hXdef : X = stackList ms (normalized.map (padTo ms)) := rfl
  have hlen : (normalized.map (padTo ms)).length = samples.length := by
    simp [normalized]
  constructor
  · rw [hXdef]
    simp [stackList, hlen]
  · intro k hk
    have hk1 : k < normalized.length := by simp [normalized, hk]
    have hk2 : k < (normalized.map (padTo ms)).length := by simp [hlen, hk]
    have hval : ∀ idx, X.val (k :: idx) = (padTo ms (normalized.getD k zeroArr)).val idx := by
      intro idx
      rw [hXdef]
      show ((normalized.map (padTo ms)).getD k zeroArr).val idx = _
      rw [List.getD_eq_getElem _ _ hk2, List.getElem_map, ← List.getD_eq_getElem _ zeroArr hk1]
    constructor
    · intro idx hin
      rw [hval idx]
      show (if inBounds (normalized.getD k zeroArr).shape idx
            then (normalized.getD k zeroArr).val idx else 0) = _
      rw [hin]
      simp
    · intro idx _ hout
      rw [hval idx]
      show (if inBounds (normalized.getD k zeroArr).shape idx
            then (normalized.getD k zeroArr).val idx else 0) = 0
      rw [hout]
      simp

/-- Concrete ragged samples for the C2 witness: a rank-1 and a rank-2 array. -/
def sampleA : NDArray := ⟨[2], fun idx => ((idx.headD 0 : Nat) : Rat)⟩

def sampleB : NDArray := ⟨[2, 3], fun _ => 7⟩

/-- Witness for C2 at the concrete ragged pair `[sampleA, sampleB]`. -/
theorem C2_witness :
    let r := maxRank [sampleA, sampleB]
    let normalized := [sampleA, sampleB].map (expandToRank r)
    let ms := maxShape r normalized
    let X := normalizeAndStack [sampleA, sampleB]
    X.shape = 2 :: ms ∧
    (∀ idx, inBounds (normalized.getD 0 zeroArr).shape idx = true →
      X.val (0 :: idx) = (normalized.getD 0 zeroArr).val idx) ∧
    (∀ idx, inBounds ms idx = true →
      inBounds (normalized.getD 0 zeroArr).shape idx = false →
      X.val (0 :: idx) = 0) := by
  have h := C2_shape_normalization [sampleA, sampleB] (by simp)
  exact ⟨h.1, (h.2 0 (by simp)).1, (h.2 0 (by simp)).2⟩

lemma mem_enumFrom_getD {α : Type} (d : α) :
    ∀ (l : List α) (j : Nat) (p : Nat × α), p ∈ l.enumFrom j →
      ∃ k, p.1 = j + k ∧ k < l.length ∧ l.getD k d = p.2 := by
  intro l
  induction l with
  | nil => intro j p hp; simp [List.enumFrom] at hp
  | cons x xs ih =>
    intro j p hp
    rw [List.enumFrom] at hp
    rcases List.mem_cons.mp hp with h | h
    · exact ⟨0, by simp [h], by simp, by simp [h, List.getD]⟩
    · obtain ⟨k, hk1, hk2, hk3⟩ := ih (j + 1) p h
      exact ⟨k + 1, by omega, by simp; omega, by simpa [List.getD] using hk3⟩

lemma filter_loop_spec {α : Type} (combos : List (String × Nat)) :
    ∀ (l : List (α × PyLabel × Nat)) (i : Nat),
      filter_loop combos i l =
        (((l.enumFrom i).filter fun p => matches_combo combos p.2.2.1 p.2.2.2).map fun p => p.2.1,
         ((l.enumFrom i).filter fun p => matches_combo combos p.2.2.1 p.2.2.2).map fun p => p.2.2.1,
         ((l.enumFrom i).filter fun p => matches_combo combos p.2.2.1 p.2.2.2).map fun p => p.2.2.2,
         ((l.enumFrom i).filter fun p => matches_combo combos p.2.2.1 p.2.2.2).map fun p => p.1) := by
  intro l
  induction l with
  | nil => intro i; simp [filter_loop, List.enumFrom]
  | cons x xs ih =>
    intro i
    obtain ⟨s, g, c⟩ := x
    rw [List.enumFrom]
    by_cases hm : matches_combo combos g c = true <;>
      simp [filter_loop, hm, ih (i + 1), List.filter_cons]

/-- C9: filtering on `["PD_target"]` keeps exactly the samples whose group
index is 1 and condition index is 0, in their original relative order; the
returned index list holds their original positions, and indexing the zipped
input at a kept index reproduces exactly the kept entry, so any parallel
array sliced with the kept indices yields the matching entries. -/
theorem C9_pd_target_filter (samples : List NDArray) (gl : List Int) (cl : List Nat) :
    let zipped := samples.zip ((gl.map PyLabel.int).zip cl)
    let keep := zipped.enum.filter fun p => decide (p.2.2.1 = PyLabel.int 1 ∧ p.2.2.2 = 0)
    let res := filter_by_selected_classes samples (gl.map PyLabel.int) cl (some [("PD_target")])
    res.1 = keep.map (fun p => p.2.1) ∧
    res.2.1 = keep.map (fun p => p.2.2.1) ∧
    res.2.2.1 = keep.map (fun p => p.2.2.2) ∧
    res.2.2.2 = keep.map (fun p => p.1) ∧
    ∀ q ∈ keep, q.1 < samples.length ∧
      zipped.getD q.1 (zeroArr, PyLabel.int 0, 0) = q.2 := by
  intro zipped keep res
  have hcombos : parse_selected_combos [("PD_target")] = [(("PD"), 0)] := by rfl
  have hres : res = filter_loop [(("PD"), 0)] 0 zipped := by
    show filter_by_selected_classes samples (gl.map PyLabel.int) cl (some [("PD_target")]) = _
    simp [filter_by_selected_classes, hcombos]
  have hpred : ∀ q ∈ zipped.enum,
      matches_combo [(("PD"), 0)] q.2.2.1 q.2.2.2
        = decide (q.2.2.1 = PyLabel.int 1 ∧ q.2.2.2 = 0) := by
    intro q hq
    obtain ⟨k, _, hk2, hk3⟩ := mem_enumFrom_getD (zeroArr, PyLabel.int 0, 0) zipped 0 q hq
    have hqmem : q.2 ∈ zipped := by
      rw [← hk3, List.getD_eq_getElem _ _ hk2]
      exact List.getElem_mem hk2
    have hglmem : q.2.2.1 ∈ gl.map PyLabel.int := by
      have h1 := List.of_mem_zip hqmem
      have h2 := List.of_mem_zip h1.2
      exact h2.1
    obtain ⟨gi, _, hgi⟩ := List.mem_map.mp hglmem
    have hPD : groupLookup ("PD") = 1 := by rfl
    by_cases h1 : gi = 1 <;> by_cases h2 : q.2.2.2 = 0 <;>
      simp [matches_combo, label_to_group_idx, ← hgi, hPD, h1, h2] <;> omega
  have hfilter : (List.enumFrom 0 zipped).filter
        (fun p => matches_combo [(("PD"), 0)] p.2.2.1 p.2.2.2)
      = (List.enumFrom 0 zipped).filter
        (fun p => decide (p.2.2.1 = PyLabel.int 1 ∧ p.2.2.2 = 0)) :=
    List.filter_congr hpred
  have hspec := filter_loop_spec [(("PD"), 0)] zipped 0
  refine ⟨?_, ?_, ?_, ?_, ?_⟩
  · rw [hres, hspec]
    exact congrArg (List.map fun p => p.2.1) hfilter
  · rw [hres, hspec]
    exact congrArg (List.map fun p => p.2.2.1) hfilter
  · rw [hres, hspec]
    exact congrArg (List.map fun p => p.2.2.2) hfilter
  · rw [hres, hspec]
    exact congrArg (List.map fun p => p.1) hfilter
  · intro q hq
    have hq' : q ∈ zipped.enum := List.mem_of_mem_filter hq
    obtain ⟨k, hk1, hk2, hk3⟩ :=
      mem_enumFrom_getD (zeroArr, PyLabel.int 0, 0) zipped 0 q hq'
    have hk1' : q.1 = k := by omega
    have hzlen : zipped.length ≤ samples.length := by
      show (samples.zip ((gl.map PyLabel.int).zip cl)).length ≤ samples.length
      rw [List.length_zip]
      exact Nat.min_le_left _ _
    refine ⟨by omega, ?_⟩
    rw [hk1']
    exact hk3

/-- Witness for C9 at a concrete labeled set containing both groups and all
three conditions. -/
theorem C9_witness :
    let zipped := [sampleA, sampleB, sampleA, sampleB].zip
      (([1, 0, 1, 1].map PyLabel.int).zip [0, 0, 1, 0])
    let keep := zipped.enum.filter fun p => decide (p.2.2.1 = PyLabel.int 1 ∧ p.2.2.2 = 0)
    let res := filter_by_selected_classes [sampleA, sampleB, sampleA, sampleB]
      ([1, 0, 1, 1].map PyLabel.int) [0, 0, 1, 0] (some [("PD_target")])
    res.1 = keep.map (fun p => p.2.1) ∧
    res.2.2.2 = keep.map (fun p => p.1) ∧
    ((0, sampleA, PyLabel.int 1, 0) ∈ keep →
      (0 : Nat) < 4 ∧ zipped.getD 0 (zeroArr, PyLabel.int 0, 0)
        = (sampleA, PyLabel.int 1, 0)) := by
  have h := C9_pd_target_filter [sampleA, sampleB, sampleA, sampleB] [1, 0, 1, 1] [0, 0, 1, 0]
  exact ⟨h.1, h.2.2.2.1, fun hmem => h.2.2.2.2 _ hmem⟩

end NeuroPAC
